import Mathlib

/-!
# Verification of the ai-validator pipeline

Shallow embedding of the validation pipeline (QueryClassifier,
AccuracyChecker, HallucinationDetector, ConfidenceScorer,
AIValidator.validate / calculateContextRelevance) over `ℚ` for JS numbers
and `String` / `List Char` for JS strings.

External effects are modelled explicitly:
* an invocation of the external LLM judge is a value of
  `Except String String` — `Except.ok raw` is the raw text the call
  produced, `Except.error msg` is a thrown failure carrying the error
  message (the code catches it);
* the JS builtin `JSON.parse` is a parameter
  `jsonParse : String → Option ParsedObj` — `none` models a throw, and a
  successful parse is projected to the fields the checkers read
  (a parsed non-object value simply has every field absent).

A checker "does not invoke the judge" exactly when its result does not
depend on the judge argument, so those claims are stated as equations that
hold for every judge value.

Character-level approximations (noted where used): character lowercasing
follows ASCII (`Char.toLower`), matching the JS behaviour on the ASCII
inputs the patterns and tests use.
-/

/-- JS whitespace class `\s`: space, tab, LF, CR, vertical tab, form feed,
no-break space, and the Unicode space separators recognised by JS regexes. -/
def jsIsSpace (c : Char) : Bool :=
  c == ' ' || c == '\t' || c == '\n' || c == '\r' ||
  c == Char.ofNat 11 || c == Char.ofNat 12 || c == Char.ofNat 0xa0 ||
  c == Char.ofNat 0x1680 || (0x2000 ≤ c.toNat && c.toNat ≤ 0x200a) ||
  c == Char.ofNat 0x2028 || c == Char.ofNat 0x2029 || c == Char.ofNat 0x202f ||
  c == Char.ofNat 0x205f || c == Char.ofNat 0x3000 || c == Char.ofNat 0xfeff

/-- JS word-character class `\w` (no Unicode flag): ASCII letters, digits,
underscore. -/
def jsWordChar (c : Char) : Bool :=
  (c ≥ 'a' && c ≤ 'z') || (c ≥ 'A' && c ≤ 'Z') || (c ≥ '0' && c ≤ '9') || c == '_'

/-- `String.prototype.trim()`: drop leading and trailing whitespace
(char-list form). -/
def jsTrimL (l : List Char) : List Char :=
  ((l.dropWhile jsIsSpace).reverse.dropWhile jsIsSpace).reverse

/-- `String.prototype.toLowerCase()` (char-list form, ASCII case map). -/
def jsToLowerL (l : List Char) : List Char :=
  l.map Char.toLower

/-- An apostrophe, kept out of string literals. -/
def apos : String := String.singleton (Char.ofNat 39)

/-- `.replace(/[^\w\s]/g, '')`: delete every character that is neither a
word character nor whitespace. -/
def stripNonWordSpace (l : List Char) : List Char :=
  l.filter (fun c => jsWordChar c || jsIsSpace c)

/-- `.split(/\s+/)`, up to empty fragments: we split at every single
whitespace character, where the JS regex collapses whitespace runs.  The
two differ only by extra empty-string fragments, and every call site
immediately filters the fragments by a positive minimum length, so the
filtered token lists coincide. -/
def splitWs : List Char → List (List Char)
  | [] => [[]]
  | c :: cs =>
    if jsIsSpace c then [] :: splitWs cs
    else
      match splitWs cs with
      | [] => [[c]]
      | w :: ws => (c :: w) :: ws

/-- Does `pat` occur as a contiguous substring of `l`?  (Models an
unanchored JS regex literal-alternative test.) -/
def containsSub (pat : List Char) : List Char → Bool
  | [] => pat.isEmpty
  | c :: cs => pat.isPrefixOf (c :: cs) || containsSub pat cs

/- ## Data model (src/types, as used by the components) -/

/-- A retrieved source document: `{ content, title? }`. -/
structure Source where
  content : String
  title : Option String
deriving DecidableEq

/-- `AccuracyResult { verified, verification_rate, reason? }`. -/
structure AccuracyResult where
  verified : Bool
  verification_rate : ℚ
  reason : Option String
deriving DecidableEq

/-- `ContextResult { source_relevance, source_usage_rate, valid }`. -/
structure ContextResult where
  source_relevance : ℚ
  source_usage_rate : ℚ
  valid : Bool
deriving DecidableEq

/-- `HallucinationResult { detected, risk, hallucinated_parts? }`.  The
field is optional because two orchestrator literals omit it. -/
structure HallucinationResult where
  detected : Bool
  risk : ℚ
  hallucinated_parts : Option (List String)
deriving DecidableEq

/-- Discrete confidence level. -/
inductive ConfLevel where
  | high
  | medium
  | low
deriving DecidableEq

/-- The `breakdown` record of a `ConfidenceResult`. -/
structure Breakdown where
  accuracy_score : ℚ
  context_score : ℚ
  hallucination_score : ℚ
  source_quality : ℚ
deriving DecidableEq

/-- `ConfidenceResult { confidence_score, level, breakdown }`. -/
structure ConfidenceResult where
  confidence_score : ℚ
  level : ConfLevel
  breakdown : Breakdown
deriving DecidableEq

/- ## ConfidenceScorer (src/src/ConfidenceScorer.ts) -/

/-- `Math.round(x * 100) / 100` — round to 2 decimals.  JS `Math.round`
rounds half toward `+∞`, which is exactly Mathlib `round` (`⌊x + 1/2⌋`). -/
def round2 (x : ℚ) : ℚ :=
  (round (x * 100) : ℤ) / 100

/-- Per-source quality inside `ConfidenceScorer.calculateSourceQuality`:
base 0.5, +0.2 for content over 100 chars, +0.2 more over 500 chars,
+0.1 for a non-empty title, capped at 1.0. -/
def sourceQuality (s : Source) : ℚ :=
  let q0 : ℚ := 0.5
  let q1 := if s.content.length > 100 then q0 + 0.2 else q0
  let q2 := if s.content.length > 500 then q1 + 0.2 else q1
  let q3 := if (match s.title with
                | some t => decide (t.length > 0)
                | none => false) then q2 + 0.1 else q2
  min q3 1.0

/-- `ConfidenceScorer.calculateSourceQuality`: average per-source quality,
0 when there are no sources. -/
def calculateSourceQuality (sources : List Source) : ℚ :=
  if sources.length = 0 then 0
  else ((sources.map sourceQuality).sum) / (sources.length : ℚ)

/-- The weighted sum computed inside `calculateConfidence` before any
rounding: weights accuracy 0.35, context 0.25, hallucination 0.30
(as `1 - risk`), source quality 0.10. -/
def rawConfidenceScore (a : AccuracyResult) (c : ContextResult)
    (h : HallucinationResult) (sources : List Source) : ℚ :=
  (a.verification_rate * 0.35) + (c.source_relevance * 0.25) +
  ((1 - h.risk) * 0.30) + (calculateSourceQuality sources * 0.10)

/-- `ConfidenceScorer.calculateConfidence`.  Note the level is chosen from
the unrounded weighted score, while the returned `confidence_score` and
breakdown entries are rounded to 2 decimals. -/
def calculateConfidence (a : AccuracyResult) (c : ContextResult)
    (h : HallucinationResult) (sources : List Source) : ConfidenceResult :=
  let accuracyScore := a.verification_rate
  let contextScore := c.source_relevance
  let hallucinationScore := 1 - h.risk
  let sourceQualityScore := calculateSourceQuality sources
  let confidenceScore := rawConfidenceScore a c h sources
  let level : ConfLevel :=
    if confidenceScore ≥ 0.8 then ConfLevel.high
    else if confidenceScore ≥ 0.5 then ConfLevel.medium
    else ConfLevel.low
  ⟨round2 confidenceScore, level,
    ⟨round2 accuracyScore, round2 contextScore,
     round2 hallucinationScore, round2 sourceQualityScore⟩⟩

/- ## QueryClassifier (src/unnamed/part_002, class QueryClassifier) -/

/-- The six query categories. -/
inductive QueryType where
  | greeting
  | typo
  | small_talk
  | clarification
  | meta
  | question
deriving DecidableEq

/-- `QueryClassificationResult { type, confidence, skip_validation }`. -/
structure QueryClassificationResult where
  type : QueryType
  confidence : ℚ
  skip_validation : Bool
deriving DecidableEq

/-- `query.trim().toLowerCase()` as a char list. -/
def normalizeQuery (q : String) : List Char :=
  jsToLowerL (jsTrimL q.data)

/-- Alternatives of the `greeting` regex
`/^(hi|hello|hey|good morning|good afternoon|good evening|greetings|sup|what's up)/i`. -/
def greetingWords : List String :=
  ["hi", "hello", "hey", "good morning", "good afternoon", "good evening",
   "greetings", "sup", "what" ++ apos ++ "s up"]

/-- Alternatives of the unanchored `typo` regex
`/(helo|whta|thnak|recieve|seperate|occured|definately|accomodate|begining|neccessary)/i`. -/
def typoWords : List String :=
  ["helo", "whta", "thnak", "recieve", "seperate", "occured", "definately",
   "accomodate", "begining", "neccessary"]

/-- Alternatives of the `small_talk` regex
`/^(how are you|what's up|nice weather|how's it going|how's your day)/i`. -/
def smallTalkWords : List String :=
  ["how are you", "what" ++ apos ++ "s up", "nice weather",
   "how" ++ apos ++ "s it going", "how" ++ apos ++ "s your day"]

/-- Alternatives of the `clarification` regex
`/^(what do you mean|can you repeat|can you explain|i don't understand|what does that mean)/i`. -/
def clarificationWords : List String :=
  ["what do you mean", "can you repeat", "can you explain",
   "i don" ++ apos ++ "t understand", "what does that mean"]

/-- Alternatives of the `meta` regex
`/^(what can you help with|what's your name|who are you|what are you|what do you do)/i`. -/
def metaWords : List String :=
  ["what can you help with", "what" ++ apos ++ "s your name", "who are you",
   "what are you", "what do you do"]

/-- `startsWith` on char lists. -/
def startsW (w : String) (t : List Char) : Bool :=
  w.data.isPrefixOf t

/-- The anchored greeting regex test: some alternative is a prefix. -/
def greetingPat (t : List Char) : Bool :=
  greetingWords.any (fun w => startsW w t)

/-- The unanchored typo regex test: some alternative occurs anywhere. -/
def typoPat (t : List Char) : Bool :=
  typoWords.any (fun w => containsSub w.data t)

/-- The anchored small-talk regex test. -/
def smallTalkPat (t : List Char) : Bool :=
  smallTalkWords.any (fun w => startsW w t)

/-- The anchored clarification regex test. -/
def clarificationPat (t : List Char) : Bool :=
  clarificationWords.any (fun w => startsW w t)

/-- The anchored meta regex test. -/
def metaPat (t : List Char) : Bool :=
  metaWords.any (fun w => startsW w t)

/-- The `patterns` object, in `Object.entries` insertion order. -/
def queryPatterns : List (QueryType × (List Char → Bool)) :=
  [(QueryType.greeting, greetingPat), (QueryType.typo, typoPat),
   (QueryType.small_talk, smallTalkPat), (QueryType.clarification, clarificationPat),
   (QueryType.meta, metaPat)]

/-- `QueryClassifier.classifyQuery`: first matching pattern wins with
confidence 0.9 and `skip_validation` iff the type is in
`['greeting','typo','small_talk','meta']`; otherwise length ≤ 10 gives
`greeting`/0.7/skip; otherwise a `?` or interrogative start gives
`question`/0.8; else `question`/0.6. -/
def classifyQuery (query : String) : QueryClassificationResult :=
  let t := normalizeQuery query
  match queryPatterns.find? (fun tp => tp.2 t) with
  | some tp =>
    ⟨tp.1, 0.9,
     [QueryType.greeting, QueryType.typo, QueryType.small_talk,
      QueryType.meta].contains tp.1⟩
  | none =>
    if t.length ≤ 10 then ⟨QueryType.greeting, 0.7, true⟩
    else if t.contains '?' || startsW "how" t || startsW "what" t ||
            startsW "when" t || startsW "where" t || startsW "why" t ||
            startsW "who" t || startsW "which" t then
      ⟨QueryType.question, 0.8, false⟩
    else ⟨QueryType.question, 0.6, false⟩

/- ## LLM judge model, parse fallback, AccuracyChecker, HallucinationDetector -/

/-- The two judge backends. -/
inductive LLMProvider where
  | openai
  | claude
deriving DecidableEq

/-- The provider's name as interpolated into the unavailable-provider
error message. -/
def LLMProvider.name : LLMProvider → String
  | LLMProvider.openai => "openai"
  | LLMProvider.claude => "claude"

/-- The fields of a `JSON.parse` result that the two checkers read; a
field absent from the parsed value (or a non-object parse result) is
`none` (JS `undefined`). -/
structure ParsedObj where
  verified : Option Bool
  verification_rate : Option ℚ
  reason : Option String
  detected : Option Bool
  risk : Option ℚ
  hallucinated_parts : Option (List String)

/-- The empty object `{}` the parse fallback ends at. -/
def emptyParsed : ParsedObj :=
  ⟨none, none, none, none, none, none⟩

/-- One pass of `.replace(/MARKER\s*/g, '')` on a char list: at each
match the marker and the maximal following whitespace run are deleted and
scanning resumes after the deleted text (JS global regexes do not
re-match inside a replacement). -/
def replaceFenceL (m : Char) (ms : List Char) : List Char → List Char
  | [] => []
  | c :: cs =>
    if (m :: ms).isPrefixOf (c :: cs) then
      replaceFenceL m ms ((cs.drop ms.length).dropWhile jsIsSpace)
    else c :: replaceFenceL m ms cs
termination_by l => l.length
decreasing_by
  · simp only [List.length_cons]
    have key : ∀ l : List Char, (l.dropWhile jsIsSpace).length ≤ l.length := by
      intro l
      induction l with
      | nil => simp [List.dropWhile]
      | cons a as ih =>
        simp only [List.dropWhile]
        cases jsIsSpace a <;> simp <;> omega
    have h1 : ((cs.drop ms.length).dropWhile jsIsSpace).length ≤ (cs.drop ms.length).length :=
      key _
    have h2 : (cs.drop ms.length).length ≤ cs.length := by
      simp [List.length_drop]
    omega
  · simp only [List.length_cons]
    omega

/-- `content.replace(/```json\s*/g, '').replace(/```\s*/g, '').trim()`. -/
def stripFences (content : String) : String :=
  String.mk (jsTrimL (replaceFenceL '`' "``".data
    (replaceFenceL '`' "``json".data content.data)))

/-- `parseLLMResponse` (identical private helper of both checkers):
try `JSON.parse` on the raw content; on a throw, strip markdown fences
and re-parse; on a second throw return `{}`. -/
def parseLLMResponse (jsonParse : String → Option ParsedObj)
    (content : String) : ParsedObj :=
  match jsonParse content with
  | some v => v
  | none =>
    match jsonParse (stripFences content) with
    | some v => v
    | none => emptyParsed

/-- The result literal at the end of `checkAccuracyWithOpenAI` /
`checkAccuracyWithClaude`: `verified || false`, `verification_rate || 0`
(on a rational, `|| 0` agrees with defaulting the absent field to 0),
`reason` passed through. -/
def accuracyOfParsed (v : ParsedObj) : AccuracyResult :=
  ⟨v.verified.getD false, v.verification_rate.getD 0, v.reason⟩

/-- The result literal at the end of `detectHallucinationWithOpenAI` /
`detectHallucinationWithClaude`. -/
def hallucinationOfParsed (v : ParsedObj) : HallucinationResult :=
  ⟨v.detected.getD false, v.risk.getD 0, some (v.hallucinated_parts.getD [])⟩

/-- `AccuracyChecker.checkAccuracyWithOpenAI`, given the raw text of the
completion (after the `|| '{}'` null-content default). -/
def checkAccuracyWithOpenAI (jsonParse : String → Option ParsedObj)
    (raw : String) : AccuracyResult :=
  accuracyOfParsed (parseLLMResponse jsonParse raw)

/-- `AccuracyChecker.checkAccuracyWithClaude`, given the extracted text of
the first text-typed content block (or `'{}'`). -/
def checkAccuracyWithClaude (jsonParse : String → Option ParsedObj)
    (raw : String) : AccuracyResult :=
  accuracyOfParsed (parseLLMResponse jsonParse raw)

/-- `HallucinationDetector.detectHallucinationWithOpenAI`. -/
def detectHallucinationWithOpenAI (jsonParse : String → Option ParsedObj)
    (raw : String) : HallucinationResult :=
  hallucinationOfParsed (parseLLMResponse jsonParse raw)

/-- `HallucinationDetector.detectHallucinationWithClaude`. -/
def detectHallucinationWithClaude (jsonParse : String → Option ParsedObj)
    (raw : String) : HallucinationResult :=
  hallucinationOfParsed (parseLLMResponse jsonParse raw)

/-- `AccuracyChecker.checkAccuracy`.  `hasOpenai` / `hasClaude` model
whether the optional API clients were constructed; `judge` models the
awaited external call (`Except.error` is a thrown failure).  The `try`
block dispatches on provider and availability, throws
`LLM provider <p> not available` when neither branch applies, and the
`catch` converts any thrown message into the pessimistic result. -/
def checkAccuracy (hasOpenai hasClaude : Bool) (p : LLMProvider)
    (judge : Except String String) (jsonParse : String → Option ParsedObj)
    (response : String) (sources : List Source) : AccuracyResult :=
  if sources.length = 0 then
    ⟨false, 0, some "no_sources_provided"⟩
  else
    let attempt : Except String AccuracyResult :=
      if (p == LLMProvider.openai) && hasOpenai then
        Except.map (checkAccuracyWithOpenAI jsonParse) judge
      else if (p == LLMProvider.claude) && hasClaude then
        Except.map (checkAccuracyWithClaude jsonParse) judge
      else Except.error ("LLM provider " ++ p.name ++ " not available")
    match attempt with
    | Except.ok r => r
    | Except.error msg => ⟨false, 0, some ("accuracy_check_failed: " ++ msg)⟩

/-- `HallucinationDetector.detectHallucination`: same shape, with its own
empty-sources short-circuit and catch result. -/
def detectHallucination (hasOpenai hasClaude : Bool) (p : LLMProvider)
    (judge : Except String String) (jsonParse : String → Option ParsedObj)
    (response : String) (sources : List Source) : HallucinationResult :=
  if sources.length = 0 then
    ⟨true, 0.8, some ["entire_response"]⟩
  else
    let attempt : Except String HallucinationResult :=
      if (p == LLMProvider.openai) && hasOpenai then
        Except.map (detectHallucinationWithOpenAI jsonParse) judge
      else if (p == LLMProvider.claude) && hasClaude then
        Except.map (detectHallucinationWithClaude jsonParse) judge
      else Except.error ("LLM provider " ++ p.name ++ " not available")
    match attempt with
    | Except.ok r => r
    | Except.error _ => ⟨true, 0.9, some ["hallucination_check_failed"]⟩

/- ## AIValidator (src/unnamed/part_002, class AIValidator) -/

/-- `ValidationInput { query, response, sources }`. -/
structure ValidationInput where
  query : String
  response : String
  sources : List Source
deriving DecidableEq

/-- `ValidationResult`; `query_type` and `skip_validation` are present
only on the short-circuit path. -/
structure ValidationResult where
  confidence : ℚ
  valid : Bool
  accuracy : AccuracyResult
  context : ContextResult
  hallucination : HallucinationResult
  warnings : List String
  query_type : Option QueryType
  skip_validation : Option Bool
deriving DecidableEq

/-- The orchestrator configuration after the constructor spreads its
defaults (`confidenceThreshold: 0.7`, the three enable flags `true`,
model names) over the user-supplied object.  `hasOpenaiKey` /
`hasClaudeKey` record whether each credential was supplied, which is what
decides whether the corresponding client exists in the checkers. -/
structure AIValidatorConfig where
  confidenceThreshold : ℚ
  enableQueryClassification : Bool
  enableAccuracyCheck : Bool
  enableHallucinationDetection : Bool
  llmProvider : LLMProvider
  hasOpenaiKey : Bool
  hasClaudeKey : Bool

/-- The user-supplied configuration object (recognised options only;
`none` = key not supplied). -/
structure UserConfig where
  confidenceThreshold : Option ℚ
  enableQueryClassification : Option Bool
  enableAccuracyCheck : Option Bool
  enableHallucinationDetection : Option Bool
  llmProvider : LLMProvider
  hasOpenaiKey : Bool
  hasClaudeKey : Bool

/-- The `AIValidator` constructor's default-spreading
`{ confidenceThreshold: 0.7, ..., ...config }`. -/
def mkConfig (u : UserConfig) : AIValidatorConfig :=
  ⟨u.confidenceThreshold.getD 0.7,
   u.enableQueryClassification.getD true,
   u.enableAccuracyCheck.getD true,
   u.enableHallucinationDetection.getD true,
   u.llmProvider, u.hasOpenaiKey, u.hasClaudeKey⟩

/-- The two judge invocations a `validate` call may make, plus the
`JSON.parse` builtin. -/
structure JudgeEnv where
  accJudge : Except String String
  halJudge : Except String String
  jsonParse : String → Option ParsedObj

/-- The local `responseWords` of `calculateContextRelevance`:
`response.toLowerCase().replace(/[^\w\s]/g, '').split(/\s+/)
.filter(word => word.length > 3)`. -/
def responseWordsOf (response : String) : List (List Char) :=
  (splitWs (stripNonWordSpace (jsToLowerL response.data))).filter
    (fun w => decide (w.length > 3))

/-- The local `sourceContent`: each source content lowercased and
punctuation-stripped, joined with `' '`. -/
def sourceContentOf (sources : List Source) : List Char :=
  List.intercalate [' ']
    (sources.map (fun s => stripNonWordSpace (jsToLowerL s.content.data)))

/-- The local `sourceWords`: tokens of the joined source content longer
than 3 characters. -/
def sourceWordsOf (sources : List Source) : List (List Char) :=
  (splitWs (sourceContentOf sources)).filter (fun w => decide (w.length > 3))

/-- The local `queryWords`: query tokens longer than 2 characters. -/
def queryWordsOf (query : String) : List (List Char) :=
  (splitWs (stripNonWordSpace (jsToLowerL query.data))).filter
    (fun w => decide (w.length > 2))

/-- `AIValidator.calculateContextRelevance`: pure lexical overlap.
Response and source contents are lowercased, stripped of
non-word/non-space characters, split on whitespace and filtered to
tokens longer than 3 characters; `source_relevance` is the per-occurrence
fraction of response tokens found among source tokens (0.5 when no
qualifying response token), capped at 1.0; `source_usage_rate` is the
fraction of query tokens longer than 2 characters found among the
response tokens (0.5 when none); `valid` is `sourceRelevance > 0.3` on
the uncapped value. -/
def calculateContextRelevance (query response : String)
    (sources : List Source) : ContextResult :=
  if sources.length = 0 then
    ⟨0, 0, false⟩
  else
    let responseWords := responseWordsOf response
    let sourceWords := sourceWordsOf sources
    let wordsInSource := responseWords.countP (fun w => sourceWords.contains w)
    let sourceRelevance : ℚ :=
      if responseWords.length > 0 then (wordsInSource : ℚ) / (responseWords.length : ℚ)
      else 0.5
    let queryWords := queryWordsOf query
    let queryWordsInResponse := queryWords.countP (fun w => responseWords.contains w)
    let sourceUsageRate : ℚ :=
      if queryWords.length > 0 then (queryWordsInResponse : ℚ) / (queryWords.length : ℚ)
      else 0.5
    ⟨min sourceRelevance 1.0, sourceUsageRate, decide (sourceRelevance > 0.3)⟩

/-- `AIValidator.generateWarnings`, in source order. -/
def generateWarnings (a : AccuracyResult) (c : ContextResult)
    (h : HallucinationResult) (sources : List Source) : List String :=
  (if sources.length = 0 then ["No sources provided - high hallucination risk"] else []) ++
  (if a.verification_rate < 0.5 then ["Low accuracy verification rate"] else []) ++
  (if c.source_relevance < 0.3 then ["Low context relevance"] else []) ++
  (if h.risk > 0.5 then ["High hallucination risk detected"] else []) ++
  (if h.detected then ["Hallucination detected in response"] else [])

/-- The fixed result returned when classification says to skip. -/
def skippedResult (ty : QueryType) : ValidationResult :=
  ⟨1, true, ⟨true, 1, none⟩, ⟨1, 1, true⟩, ⟨false, 0, none⟩, [], some ty, some true⟩

/-- `AIValidator.validate`.  Classification short-circuit, the three
checks (accuracy and hallucination replaced by optimistic stand-ins when
disabled), scoring, warnings, and the threshold test
`confidence_score >= (this.config.confidenceThreshold || 0.7)` — note the
JS `||`, under which a configured threshold of 0 falls back to 0.7. -/
def validate (cfg : AIValidatorConfig) (env : JudgeEnv)
    (input : ValidationInput) : ValidationResult :=
  let classification := classifyQuery input.query
  if cfg.enableQueryClassification && classification.skip_validation then
    skippedResult classification.type
  else
    let accuracyResult :=
      if cfg.enableAccuracyCheck then
        checkAccuracy cfg.hasOpenaiKey cfg.hasClaudeKey cfg.llmProvider
          env.accJudge env.jsonParse input.response input.sources
      else ⟨true, 1, none⟩
    let contextResult := calculateContextRelevance input.query input.response input.sources
    let hallucinationResult :=
      if cfg.enableHallucinationDetection then
        detectHallucination cfg.hasOpenaiKey cfg.hasClaudeKey cfg.llmProvider
          env.halJudge env.jsonParse input.response input.sources
      else ⟨false, 0, none⟩
    let confidenceResult :=
      calculateConfidence accuracyResult contextResult hallucinationResult input.sources
    let warnings :=
      generateWarnings accuracyResult contextResult hallucinationResult input.sources
    let valid :=
      confidenceResult.confidence_score ≥
        (if cfg.confidenceThreshold = 0 then 0.7 else cfg.confidenceThreshold)
    ⟨confidenceResult.confidence_score, decide valid, accuracyResult, contextResult,
     hallucinationResult, warnings, none, none⟩

/- ## Claim-side definitions (phrased from the claims, for comparison) -/

/-- The interrogative words of the question fallback, as the claim lists
them. -/
def questionWords : List String :=
  ["how", "what", "when", "where", "why", "who", "which"]

/-- The claim's question condition: contains `?` or starts with an
interrogative word. -/
def isQuestionLike (t : List Char) : Bool :=
  t.contains '?' || questionWords.any (fun w => startsW w t)

/-- The threshold `validate` actually compares against, as a function of
the user configuration: the configured value, except that an
unsupplied — or zero, through JS falsiness — value gives 0.7. -/
def effectiveThreshold (u : UserConfig) : ℚ :=
  match u.confidenceThreshold with
  | none => 0.7
  | some v => if v = 0 then 0.7 else v

/-- C8's "the source tokens": all tokens of the lowercased,
punctuation-stripped, space-joined source contents — unlike the
implementation's `sourceWordsOf`, the claim puts no length filter on
them. -/
def sourceTokensClaim (sources : List Source) : List (List Char) :=
  splitWs (sourceContentOf sources)

/-- The context-relevance estimate exactly as claim C8 words it:
`source_relevance` = share of qualifying response tokens occurring among
the source tokens (0.5 with no qualifying token), clamped to 1.0;
`source_usage_rate` = share of qualifying query tokens occurring among
the response tokens (0.5 with none); `valid` = returned (clamped)
relevance > 0.3. -/
def contextRelevanceClaim (query response : String)
    (sources : List Source) : ContextResult :=
  let R := responseWordsOf response
  let S := sourceTokensClaim sources
  let rel : ℚ :=
    if R.length > 0 then ((R.countP (fun w => S.contains w) : ℚ) / (R.length : ℚ))
    else 0.5
  let relOut := min rel 1.0
  let Q := queryWordsOf query
  let usage : ℚ :=
    if Q.length > 0 then ((Q.countP (fun w => R.contains w) : ℚ) / (Q.length : ℚ))
    else 0.5
  ⟨relOut, usage, decide (relOut > 0.3)⟩

/- ## Helper lemmas -/

/-- `round` is monotone on `ℚ`. -/
theorem round_le_round_of_le {x y : ℚ} (h : x ≤ y) : round x ≤ round y := by
  rw [round_eq, round_eq]
  exact Int.floor_le_floor (by linarith)

/-- `round2` keeps nonnegativity. -/
theorem round2_nonneg {x : ℚ} (h : 0 ≤ x) : 0 ≤ round2 x := by
  unfold round2
  have h1 : round (0 : ℚ) ≤ round (x * 100) := round_le_round_of_le (by linarith)
  rw [round_zero] at h1
  have h2 : (0 : ℚ) ≤ (round (x * 100) : ℚ) := by exact_mod_cast h1
  linarith

/-- `round2` keeps the upper bound 1. -/
theorem round2_le_one {x : ℚ} (h : x ≤ 1) : round2 x ≤ 1 := by
  unfold round2
  have h1 : round (x * 100) ≤ round ((100 : ℤ) : ℚ) := round_le_round_of_le (by push_cast; linarith)
  rw [round_intCast] at h1
  have h2 : (round (x * 100) : ℚ) ≤ (100 : ℚ) := by exact_mod_cast h1
  linarith

/-- Pointwise-equal predicates count the same. -/
theorem countP_congr_on {p q : List Char → Bool} :
    ∀ {l : List (List Char)}, (∀ a ∈ l, p a = q a) → l.countP p = l.countP q := by
  intro l
  induction l with
  | nil => intro _; rfl
  | cons a as ih =>
    intro h
    have ha := h a (List.mem_cons_self a as)
    have hrest := ih (fun b hb => h b (List.mem_cons_of_mem a hb))
    simp [List.countP_cons, ha, hrest]

/-- Filtering a list by a predicate the element satisfies does not change
membership tests for that element. -/
theorem contains_filter_eq {p : List Char → Bool} {w : List Char} (hw : p w = true) :
    ∀ S : List (List Char), (S.filter p).contains w = S.contains w := by
  intro S
  induction S with
  | nil => rfl
  | cons a S ih =>
    rw [List.filter_cons]
    by_cases ha : p a = true
    · rw [if_pos ha]
      show (w == a || (S.filter p).contains w) = (w == a || S.contains w)
      rw [ih]
    · rw [if_neg ha]
      have hne : (w == a) = false := by
        cases hbe : w == a
        · rfl
        · exact absurd (eq_of_beq hbe ▸ hw) ha
      show (S.filter p).contains w = (w == a || S.contains w)
      rw [ih, hne, Bool.false_or]

/-- Per-source quality is nonnegative. -/
theorem sourceQuality_nonneg (s : Source) : 0 ≤ sourceQuality s := by
  simp only [sourceQuality]
  split_ifs <;> exact le_min (by norm_num) (by norm_num)

/-- Per-source quality is at most 1. -/
theorem sourceQuality_le_one (s : Source) : sourceQuality s ≤ 1 := by
  simp only [sourceQuality]
  split_ifs <;> exact le_trans (min_le_right _ _) (by norm_num)

/-- The quality sum is nonnegative. -/
theorem sum_sourceQuality_nonneg (sources : List Source) :
    0 ≤ (sources.map sourceQuality).sum := by
  induction sources with
  | nil => simp
  | cons s rest ih =>
    simp only [List.map_cons, List.sum_cons]
    have := sourceQuality_nonneg s
    linarith

/-- The quality sum is at most the number of sources. -/
theorem sum_sourceQuality_le (sources : List Source) :
    (sources.map sourceQuality).sum ≤ (sources.length : ℚ) := by
  induction sources with
  | nil => simp
  | cons s rest ih =>
    simp only [List.map_cons, List.sum_cons, List.length_cons]
    have := sourceQuality_le_one s
    push_cast
    linarith

/-- `calculateSourceQuality` is nonnegative. -/
theorem calculateSourceQuality_nonneg (sources : List Source) :
    0 ≤ calculateSourceQuality sources := by
  unfold calculateSourceQuality
  split_ifs with h
  · exact le_refl 0
  · exact div_nonneg (sum_sourceQuality_nonneg sources) (by positivity)

/-- `calculateSourceQuality` is at most 1. -/
theorem calculateSourceQuality_le_one (sources : List Source) :
    calculateSourceQuality sources ≤ 1 := by
  unfold calculateSourceQuality
  split_ifs with h
  · norm_num
  · have hpos : (0 : ℚ) < (sources.length : ℚ) := by
      have hne : sources.length ≠ 0 := h
      exact_mod_cast Nat.pos_of_ne_zero hne
    rw [div_le_one hpos]
    exact sum_sourceQuality_le sources

/- ## Claim theorems -/

/-- C1: with an empty sources sequence, `checkAccuracy` returns
`{verified: false, verification_rate: 0, reason: "no_sources_provided"}`,
`detectHallucination` returns `{detected: true, risk: 0.8,
hallucinated_parts: ["entire_response"]}`, and the context-relevance
estimate is `{source_relevance: 0, source_usage_rate: 0, valid: false}`.
The judge arguments are universally quantified and the results are
constants, so none of the three depends on — i.e. invokes — the external
judge capability. -/
theorem C1_empty_sources_short_circuit :
    ∀ (ho hc : Bool) (p : LLMProvider) (accJ halJ : Except String String)
      (jp : String → Option ParsedObj) (resp q : String),
    checkAccuracy ho hc p accJ jp resp [] =
      ⟨false, 0, some "no_sources_provided"⟩ ∧
    detectHallucination ho hc p halJ jp resp [] =
      ⟨true, 0.8, some ["entire_response"]⟩ ∧
    calculateContextRelevance q resp [] = ⟨0, 0, false⟩ := by
  intro ho hc p accJ halJ jp resp q
  exact ⟨rfl, rfl, rfl⟩

/-- C6: with non-empty sources and a judge invocation that throws (the
`Except.error` case, carrying the failure message), the failure is
converted — not re-thrown — into the fixed pessimistic results:
`checkAccuracy` gives `verified = false`, `verification_rate = 0` and a
reason string containing the failure description, `detectHallucination`
gives `detected = true`, `risk = 0.9`.  Both clients are present, so the
selected provider is available and the failure is the invocation's own. -/
theorem C6_judge_failure_caught :
    ∀ (p : LLMProvider) (msg : String) (jp : String → Option ParsedObj)
      (resp : String) (src : Source) (srcs : List Source),
    checkAccuracy true true p (Except.error msg) jp resp (src :: srcs) =
      ⟨false, 0, some ("accuracy_check_failed: " ++ msg)⟩ ∧
    detectHallucination true true p (Except.error msg) jp resp (src :: srcs) =
      ⟨true, 0.9, some ["hallucination_check_failed"]⟩ := by
  intro p msg jp resp src srcs
  cases p
  · exact ⟨rfl, rfl⟩
  · exact ⟨rfl, rfl⟩

/-- C2: when query classification is enabled and the query classifies
with `skip_validation = true`, `validate` returns the fixed optimistic
result (confidence 1.0, valid, accuracy verified at rate 1.0, context
all-1.0/valid, hallucination none at risk 0, no warnings, the query type
attached, `skip_validation` true).  The judge environment is universally
quantified and absent from the result, so no judge capability is
invoked. -/
theorem C2_skip_validation_short_circuit (cfg : AIValidatorConfig)
    (env : JudgeEnv) (input : ValidationInput)
    (h1 : cfg.enableQueryClassification = true)
    (h2 : (classifyQuery input.query).skip_validation = true) :
    validate cfg env input =
      ⟨1, true, ⟨true, 1, none⟩, ⟨1, 1, true⟩, ⟨false, 0, none⟩, [],
       some (classifyQuery input.query).type, some true⟩ := by
  simp [validate, h1, h2, skippedResult]

/-- Witness for C2 at the claim's example query `"hi"`. -/
theorem C2_witness :
    validate ⟨0.7, true, true, true, LLMProvider.openai, true, false⟩
      ⟨Except.error "boom", Except.error "boom", fun _ => none⟩
      ⟨"hi", "resp", []⟩ =
      ⟨1, true, ⟨true, 1, none⟩, ⟨1, 1, true⟩, ⟨false, 0, none⟩, [],
       some (classifyQuery "hi").type, some true⟩ :=
  C2_skip_validation_short_circuit _ _ _ rfl
    (of_decide_eq_true (by with_unfolding_all rfl))

/-- C7: on raw judge output that `JSON.parse` rejects, `parseLLMResponse`
strips the markdown fence markers and re-parses; when that also fails it
proceeds with the empty object, whose defaulted fields make the checkers
return `{verified: false, verification_rate: 0}` and `{detected: false,
risk: 0, hallucinated_parts: []}` respectively. -/
theorem C7_parse_fallback (jp : String → Option ParsedObj) (raw : String)
    (h1 : jp raw = none) :
    parseLLMResponse jp raw = (jp (stripFences raw)).getD emptyParsed ∧
    (jp (stripFences raw) = none →
      checkAccuracyWithOpenAI jp raw = ⟨false, 0, none⟩ ∧
      checkAccuracyWithClaude jp raw = ⟨false, 0, none⟩ ∧
      detectHallucinationWithOpenAI jp raw = ⟨false, 0, some []⟩ ∧
      detectHallucinationWithClaude jp raw = ⟨false, 0, some []⟩) := by
  constructor
  · unfold parseLLMResponse
    rw [h1]
    cases h2 : jp (stripFences raw) <;> rfl
  · intro h2
    have hp : parseLLMResponse jp raw = emptyParsed := by
      unfold parseLLMResponse
      rw [h1, h2]
    refine ⟨?_, ?_, ?_, ?_⟩ <;>
      simp [checkAccuracyWithOpenAI, checkAccuracyWithClaude,
        detectHallucinationWithOpenAI, detectHallucinationWithClaude, hp,
        accuracyOfParsed, hallucinationOfParsed, emptyParsed]

/-- Witness for C7 with a parse function that always fails. -/
theorem C7_witness :
    parseLLMResponse (fun _ => none) "not json" =
      ((fun _ => (none : Option ParsedObj)) (stripFences "not json")).getD emptyParsed ∧
    ((fun _ => (none : Option ParsedObj)) (stripFences "not json") = none →
      checkAccuracyWithOpenAI (fun _ => none) "not json" = ⟨false, 0, none⟩ ∧
      checkAccuracyWithClaude (fun _ => none) "not json" = ⟨false, 0, none⟩ ∧
      detectHallucinationWithOpenAI (fun _ => none) "not json" = ⟨false, 0, some []⟩ ∧
      detectHallucinationWithClaude (fun _ => none) "not json" = ⟨false, 0, some []⟩) :=
  C7_parse_fallback (fun _ => none) "not json" rfl

/-- C3 counterexample: at verification rate 0.56, full context relevance,
zero risk and one short title-less source, the unrounded weighted score
is 0.796; the returned `confidence_score` rounds to 0.80, yet the level
is `medium` — so `level = high ↔ confidence_score ≥ 0.80` fails for the
rounded score the result carries. -/
theorem C3_counterexample :
    (calculateConfidence ⟨false, 0.56, none⟩ ⟨1, 1, true⟩ ⟨false, 0, some []⟩
      [⟨"abc", none⟩]).confidence_score ≥ 0.8 ∧
    (calculateConfidence ⟨false, 0.56, none⟩ ⟨1, 1, true⟩ ⟨false, 0, some []⟩
      [⟨"abc", none⟩]).level ≠ ConfLevel.high :=
  of_decide_eq_true (by with_unfolding_all rfl)

/-- C3 as amended: the level thresholds (high iff ≥ 0.80, medium iff in
[0.50, 0.80), low iff < 0.50) are applied to the unrounded weighted
score, and the returned `confidence_score` is that score rounded to two
decimals — so the biconditionals hold for the raw score, not for the
rounded one. -/
theorem C3_level_thresholds_on_unrounded_score (a : AccuracyResult)
    (c : ContextResult) (hl : HallucinationResult) (sources : List Source) :
    (calculateConfidence a c hl sources).confidence_score =
      round2 (rawConfidenceScore a c hl sources) ∧
    ((calculateConfidence a c hl sources).level = ConfLevel.high ↔
      rawConfidenceScore a c hl sources ≥ 0.8) ∧
    ((calculateConfidence a c hl sources).level = ConfLevel.medium ↔
      (0.5 ≤ rawConfidenceScore a c hl sources ∧
       rawConfidenceScore a c hl sources < 0.8)) ∧
    ((calculateConfidence a c hl sources).level = ConfLevel.low ↔
      rawConfidenceScore a c hl sources < 0.5) := by
  have hscore : (calculateConfidence a c hl sources).confidence_score =
      round2 (rawConfidenceScore a c hl sources) := rfl
  have hlev : (calculateConfidence a c hl sources).level =
      (if rawConfidenceScore a c hl sources ≥ 0.8 then ConfLevel.high
       else if rawConfidenceScore a c hl sources ≥ 0.5 then ConfLevel.medium
       else ConfLevel.low) := rfl
  set r := rawConfidenceScore a c hl sources with hr
  by_cases h8 : r ≥ 0.8
  · rw [hlev, if_pos h8]
    exact ⟨hscore, iff_of_true rfl h8,
      iff_of_false (fun h => ConfLevel.noConfusion h)
        (fun h => absurd h8 (not_le.mpr h.2)),
      iff_of_false (fun h => ConfLevel.noConfusion h)
        (fun h => absurd h8 (not_le.mpr (lt_of_lt_of_le h (by norm_num))))⟩
  · by_cases h5 : r ≥ 0.5
    · rw [hlev, if_neg h8, if_pos h5]
      exact ⟨hscore,
        iff_of_false (fun h => ConfLevel.noConfusion h) h8,
        iff_of_true rfl ⟨h5, lt_of_not_ge h8⟩,
        iff_of_false (fun h => ConfLevel.noConfusion h)
          (fun h => absurd h5 (not_le.mpr h))⟩
    · rw [hlev, if_neg h8, if_neg h5]
      exact ⟨hscore,
        iff_of_false (fun h => ConfLevel.noConfusion h) h8,
        iff_of_false (fun h => ConfLevel.noConfusion h) (fun h => absurd h.1 h5),
        iff_of_true rfl (lt_of_not_ge h5)⟩

/-- C4 counterexample: the scorer does not clamp judge-returned values —
a hallucination risk of 2 (outside [0,1]) drives both the breakdown's
`hallucination_score` and the final `confidence_score` below 0. -/
theorem C4_counterexample :
    (calculateConfidence ⟨false, 0, none⟩ ⟨0, 0, false⟩ ⟨true, 2, some []⟩
      []).confidence_score < 0 ∧
    (calculateConfidence ⟨false, 0, none⟩ ⟨0, 0, false⟩ ⟨true, 2, some []⟩
      []).breakdown.hallucination_score < 0 :=
  of_decide_eq_true (by with_unfolding_all rfl)

/-- C4 as amended: no clamping is performed on judge-returned values, so
the [0,1] bounds hold only under the assumption that the incoming
verification rate, source relevance and risk already lie in [0,1]; under
that assumption the confidence score and every breakdown component lie
in [0,1]. -/
theorem C4_scores_bounded_for_in_range_inputs (a : AccuracyResult)
    (c : ContextResult) (hl : HallucinationResult) (sources : List Source)
    (ha0 : 0 ≤ a.verification_rate) (ha1 : a.verification_rate ≤ 1)
    (hc0 : 0 ≤ c.source_relevance) (hc1 : c.source_relevance ≤ 1)
    (hr0 : 0 ≤ hl.risk) (hr1 : hl.risk ≤ 1) :
    (0 ≤ (calculateConfidence a c hl sources).confidence_score ∧
      (calculateConfidence a c hl sources).confidence_score ≤ 1) ∧
    (0 ≤ (calculateConfidence a c hl sources).breakdown.accuracy_score ∧
      (calculateConfidence a c hl sources).breakdown.accuracy_score ≤ 1) ∧
    (0 ≤ (calculateConfidence a c hl sources).breakdown.context_score ∧
      (calculateConfidence a c hl sources).breakdown.context_score ≤ 1) ∧
    (0 ≤ (calculateConfidence a c hl sources).breakdown.hallucination_score ∧
      (calculateConfidence a c hl sources).breakdown.hallucination_score ≤ 1) ∧
    (0 ≤ (calculateConfidence a c hl sources).breakdown.source_quality ∧
      (calculateConfidence a c hl sources).breakdown.source_quality ≤ 1) := by
  have hq0 := calculateSourceQuality_nonneg sources
  have hq1 := calculateSourceQuality_le_one sources
  have hraw0 : 0 ≤ rawConfidenceScore a c hl sources := by
    unfold rawConfidenceScore
    nlinarith
  have hraw1 : rawConfidenceScore a c hl sources ≤ 1 := by
    unfold rawConfidenceScore
    nlinarith
  unfold calculateConfidence
  refine ⟨⟨round2_nonneg hraw0, round2_le_one hraw1⟩,
    ⟨round2_nonneg ha0, round2_le_one ha1⟩,
    ⟨round2_nonneg hc0, round2_le_one hc1⟩,
    ⟨round2_nonneg (by linarith), round2_le_one (by linarith)⟩,
    ⟨round2_nonneg hq0, round2_le_one hq1⟩⟩

/-- Witness for C4 as amended, at in-range inputs. -/
theorem C4_witness :
    (0 ≤ (calculateConfidence ⟨true, 1, none⟩ ⟨0.5, 0.5, true⟩ ⟨false, 0.2, some []⟩
        []).confidence_score ∧
      (calculateConfidence ⟨true, 1, none⟩ ⟨0.5, 0.5, true⟩ ⟨false, 0.2, some []⟩
        []).confidence_score ≤ 1) ∧
    (0 ≤ (calculateConfidence ⟨true, 1, none⟩ ⟨0.5, 0.5, true⟩ ⟨false, 0.2, some []⟩
        []).breakdown.accuracy_score ∧
      (calculateConfidence ⟨true, 1, none⟩ ⟨0.5, 0.5, true⟩ ⟨false, 0.2, some []⟩
        []).breakdown.accuracy_score ≤ 1) ∧
    (0 ≤ (calculateConfidence ⟨true, 1, none⟩ ⟨0.5, 0.5, true⟩ ⟨false, 0.2, some []⟩
        []).breakdown.context_score ∧
      (calculateConfidence ⟨true, 1, none⟩ ⟨0.5, 0.5, true⟩ ⟨false, 0.2, some []⟩
        []).breakdown.context_score ≤ 1) ∧
    (0 ≤ (calculateConfidence ⟨true, 1, none⟩ ⟨0.5, 0.5, true⟩ ⟨false, 0.2, some []⟩
        []).breakdown.hallucination_score ∧
      (calculateConfidence ⟨true, 1, none⟩ ⟨0.5, 0.5, true⟩ ⟨false, 0.2, some []⟩
        []).breakdown.hallucination_score ≤ 1) ∧
    (0 ≤ (calculateConfidence ⟨true, 1, none⟩ ⟨0.5, 0.5, true⟩ ⟨false, 0.2, some []⟩
        []).breakdown.source_quality ∧
      (calculateConfidence ⟨true, 1, none⟩ ⟨0.5, 0.5, true⟩ ⟨false, 0.2, some []⟩
        []).breakdown.source_quality ≤ 1) :=
  C4_scores_bounded_for_in_range_inputs ⟨true, 1, none⟩ ⟨0.5, 0.5, true⟩
    ⟨false, 0.2, some []⟩ []
    (of_decide_eq_true (by with_unfolding_all rfl))
    (of_decide_eq_true (by with_unfolding_all rfl))
    (of_decide_eq_true (by with_unfolding_all rfl))
    (of_decide_eq_true (by with_unfolding_all rfl))
    (of_decide_eq_true (by with_unfolding_all rfl))
    (of_decide_eq_true (by with_unfolding_all rfl))

/-- C5 counterexample: with `confidenceThreshold` configured as 0 on a
non-skipped run (a real question, no sources, confidence 0.06), the claim
demands `valid = (0.06 ≥ 0) = true`, but `validate` compares against 0.7
because JS `this.config.confidenceThreshold || 0.7` treats the configured
0 as falsy — the returned `valid` is `false`. -/
theorem C5_counterexample :
    0 ≤ (validate (mkConfig ⟨some 0, none, none, none, LLMProvider.openai, true, false⟩)
        ⟨Except.error "e", Except.error "e", fun _ => none⟩
        ⟨"What is the boiling point of water?", "resp", []⟩).confidence ∧
    (validate (mkConfig ⟨some 0, none, none, none, LLMProvider.openai, true, false⟩)
        ⟨Except.error "e", Except.error "e", fun _ => none⟩
        ⟨"What is the boiling point of water?", "resp", []⟩).valid = false :=
  of_decide_eq_true (by with_unfolding_all rfl)

/-- C5 as amended: on every non-skipped run, `valid` equals
`confidence_score ≥ t` where `t` is the configured threshold except that
an unsupplied — or, through JS falsiness, zero — threshold is replaced by
the default 0.7 (`effectiveThreshold`). -/
theorem C5_valid_iff_threshold (u : UserConfig) (env : JudgeEnv)
    (input : ValidationInput)
    (hskip : ((mkConfig u).enableQueryClassification &&
      (classifyQuery input.query).skip_validation) = false) :
    (validate (mkConfig u) env input).valid =
      decide ((validate (mkConfig u) env input).confidence ≥
        effectiveThreshold u) := by
  simp only [validate]
  rw [hskip]
  simp only [Bool.false_eq_true, if_false]
  have ht : (if (mkConfig u).confidenceThreshold = 0 then (0.7 : ℚ)
      else (mkConfig u).confidenceThreshold) = effectiveThreshold u := by
    unfold mkConfig effectiveThreshold
    cases u.confidenceThreshold with
    | none => norm_num
    | some v => simp [Option.getD]
  rw [ht]

/-- Witness for C5 as amended: threshold 0.9, question query, no
sources — confidence 0.06, so `valid` is false on both sides. -/
theorem C5_witness :
    (validate (mkConfig ⟨some 0.9, none, none, none, LLMProvider.openai, true, false⟩)
        ⟨Except.error "e", Except.error "e", fun _ => none⟩
        ⟨"What is the boiling point of water?", "resp", []⟩).valid =
      decide ((validate (mkConfig ⟨some 0.9, none, none, none, LLMProvider.openai, true, false⟩)
        ⟨Except.error "e", Except.error "e", fun _ => none⟩
        ⟨"What is the boiling point of water?", "resp", []⟩).confidence ≥
        effectiveThreshold ⟨some 0.9, none, none, none, LLMProvider.openai, true, false⟩) :=
  C5_valid_iff_threshold _ _ _ (of_decide_eq_true (by with_unfolding_all rfl))

/-- C9: `classifyQuery` follows the documented precedence on the trimmed,
lowercased query: greeting, typo, small_talk, clarification, meta tried
in that order at confidence 0.9 (skippable except clarification), then
the ≤ 10-character greeting fallback at 0.7, then the
question-mark/interrogative-start `question` at 0.8, then `question` at
0.6. -/
theorem C9_classifier_precedence (q : String) :
    classifyQuery q =
      (let t := normalizeQuery q
       if greetingPat t then ⟨QueryType.greeting, 0.9, true⟩
       else if typoPat t then ⟨QueryType.typo, 0.9, true⟩
       else if smallTalkPat t then ⟨QueryType.small_talk, 0.9, true⟩
       else if clarificationPat t then ⟨QueryType.clarification, 0.9, false⟩
       else if metaPat t then ⟨QueryType.meta, 0.9, true⟩
       else if t.length ≤ 10 then ⟨QueryType.greeting, 0.7, true⟩
       else if isQuestionLike t then ⟨QueryType.question, 0.8, false⟩
       else ⟨QueryType.question, 0.6, false⟩) := by
  simp only [classifyQuery, queryPatterns, normalizeQuery]
  set t := jsToLowerL (jsTrimL q.data) with ht
  cases h1 : greetingPat t <;> cases h2 : typoPat t <;> cases h3 : smallTalkPat t <;>
    cases h4 : clarificationPat t <;> cases h5 : metaPat t <;>
      simp [List.find?, h1, h2, h3, h4, h5, isQuestionLike, questionWords,
        Bool.or_assoc, Bool.or_false]

/-- C10 counterexample to the claim as stated: a query that both starts
with "hi" and contains the misspelling "recieve" classifies as greeting
(the greeting pattern is tested first), not as typo — though it is still
skippable. -/
theorem C10_counterexample :
    typoPat (normalizeQuery "hi did i recieve it") = true ∧
    classifyQuery "hi did i recieve it" ≠ ⟨QueryType.typo, 0.9, true⟩ ∧
    classifyQuery "hi did i recieve it" = ⟨QueryType.greeting, 0.9, true⟩ :=
  of_decide_eq_true (by with_unfolding_all rfl)

/-- C10 as amended: the greeting pattern is anchored without a word
boundary, so every query whose trimmed lowercased text starts with "hi"
classifies as greeting with `skip_validation = true`; the typo pattern is
an unanchored substring match, so every query containing a listed
misspelling — provided the earlier greeting pattern does not match —
classifies as typo with `skip_validation = true`; and for every
skip-classified query, `validate` returns confidence 1.0 and valid true
with a result independent of the judge environment (no accuracy, context
or hallucination check runs). -/
theorem C10_anchored_patterns_skip_substantive_queries :
    (∀ q : String, startsW "hi" (normalizeQuery q) = true →
      classifyQuery q = ⟨QueryType.greeting, 0.9, true⟩) ∧
    (∀ q : String, greetingPat (normalizeQuery q) = false →
      typoPat (normalizeQuery q) = true →
      classifyQuery q = ⟨QueryType.typo, 0.9, true⟩) ∧
    (∀ (cfg : AIValidatorConfig) (env : JudgeEnv) (input : ValidationInput),
      cfg.enableQueryClassification = true →
      (classifyQuery input.query).skip_validation = true →
      (validate cfg env input).confidence = 1 ∧
      (validate cfg env input).valid = true ∧
      ∀ env' : JudgeEnv, validate cfg env input = validate cfg env' input) := by
  refine ⟨?_, ?_, ?_⟩
  · intro q hq
    have hg : greetingPat (normalizeQuery q) = true := by
      unfold greetingPat greetingWords
      simp only [List.any_cons, hq, Bool.true_or]
    simp [classifyQuery, queryPatterns, List.find?, hg]
  · intro q hg ht
    simp [classifyQuery, queryPatterns, List.find?, hg, ht]
  · intro cfg env input h1 h2
    have hv : ∀ e : JudgeEnv,
        validate cfg e input = skippedResult (classifyQuery input.query).type := by
      intro e
      simp [validate, h1, h2]
    refine ⟨by rw [hv env]; rfl, by rw [hv env]; rfl, fun env' => by rw [hv env, hv env']⟩

/-- Witness for C10 as amended, at the claim's two example queries. -/
theorem C10_witness :
    classifyQuery "history of Rome?" = ⟨QueryType.greeting, 0.9, true⟩ ∧
    classifyQuery "Did I recieve the package?" = ⟨QueryType.typo, 0.9, true⟩ ∧
    (validate ⟨0.7, true, true, true, LLMProvider.openai, true, false⟩
      ⟨Except.error "e", Except.error "e", fun _ => none⟩
      ⟨"history of Rome?", "resp", []⟩).confidence = 1 :=
  ⟨C10_anchored_patterns_skip_substantive_queries.1 "history of Rome?"
    (of_decide_eq_true (by with_unfolding_all rfl)),
   C10_anchored_patterns_skip_substantive_queries.2.1 "Did I recieve the package?"
    (of_decide_eq_true (by with_unfolding_all rfl))
    (of_decide_eq_true (by with_unfolding_all rfl)),
   (C10_anchored_patterns_skip_substantive_queries.2.2 _ _ _ rfl
    (of_decide_eq_true (by with_unfolding_all rfl))).1⟩

/-- C8: with non-empty sources, `calculateContextRelevance` computes
exactly the deterministic pure function the claim describes
(`contextRelevanceClaim`).  The two differences in phrasing are
immaterial: a response token longer than 3 characters occurs among the
length-filtered source tokens iff it occurs among all source tokens, and
the `valid` test on the unclamped ratio agrees with the claim's test on
the returned clamped value because the ratio never exceeds 1. -/
theorem C8_context_relevance_formula (query response : String)
    (sources : List Source) (h : sources ≠ []) :
    calculateContextRelevance query response sources =
      contextRelevanceClaim query response sources := by
  have hlen : ¬(sources.length = 0) := by
    simpa [List.length_eq_zero] using h
  have hcnt : (responseWordsOf response).countP
      (fun w => (sourceWordsOf sources).contains w) =
      (responseWordsOf response).countP
      (fun w => (sourceTokensClaim sources).contains w) := by
    apply countP_congr_on
    intro w hw
    have hw3 : (fun w => decide (w.length > 3)) w = true :=
      (List.mem_filter.mp hw).2
    exact contains_filter_eq hw3 (sourceTokensClaim sources)
  have hle : (if (responseWordsOf response).length > 0
      then (((responseWordsOf response).countP
          (fun w => (sourceTokensClaim sources).contains w) : ℚ) /
        ((responseWordsOf response).length : ℚ))
      else 0.5) ≤ 1.0 := by
    split_ifs with hR
    · have hpos : (0 : ℚ) < ((responseWordsOf response).length : ℚ) := by
        exact_mod_cast hR
      have hcl : ((responseWordsOf response).countP
          (fun w => (sourceTokensClaim sources).contains w) : ℚ) ≤
          ((responseWordsOf response).length : ℚ) := by
        exact_mod_cast List.countP_le_length _
      have h1 : (1.0 : ℚ) = 1 := by norm_num
      rw [h1, div_le_one hpos]
      exact hcl
    · norm_num
  simp only [calculateContextRelevance, contextRelevanceClaim]
  rw [if_neg hlen]
  simp only [hcnt]
  rw [min_eq_left hle]

/-- Witness for C8 at a concrete grounded input. -/
theorem C8_witness :
    calculateContextRelevance "what is gpt" "gpt is a language model"
      [⟨"gpt is a language model", some "t"⟩] =
    contextRelevanceClaim "what is gpt" "gpt is a language model"
      [⟨"gpt is a language model", some "t"⟩] :=
  C8_context_relevance_formula "what is gpt" "gpt is a language model"
    [⟨"gpt is a language model", some "t"⟩]
    (of_decide_eq_true (by with_unfolding_all rfl))


